import Mathlib

/-!
Shallow embedding of the BERR2243 coursework repository: the taxi-booking
REST handlers (the authenticated app in Week4.js, database MyTaxiDB), the
queue-ticketing handlers (the JPJeQDB apps in Week4.js and Assignment.js),
and the admin user-deletion route of the unnamed ride app.

Mongo ObjectIds are modelled as naturals; a Mongo collection is the list of
its documents in natural order, so findOne is List.find?, insertOne is an
append (the generated _id is passed as an argument), and updateOne with an
_id filter is a map that rewrites the matching documents.  Each handler
takes the database state plus the request data and returns the new state
together with the HTTP status code it responds with.
-/

abbrev OId := Nat

namespace Taxi

/-- A document of the drivers collection (fields Status, Earnings, Rating
as written by the handlers of Week4.js). -/
structure Driver where
  id : OId
  status : String
  earnings : ℚ
  rating : Option ℚ
  deriving Repr, DecidableEq

/-- A document of the rides collection as inserted by POST /ride/book and
mutated by the accept/cancel/payment handlers. -/
structure Ride where
  id : OId
  customerId : OId
  driverId : Option OId
  pickup : String
  destination : String
  status : String
  paymentStatus : String
  fare : ℚ
  paymentId : Option OId
  deriving Repr, DecidableEq

/-- A document of the ratings collection as inserted by POST /rating. -/
structure RatingDoc where
  id : OId
  customerId : OId
  driverId : OId
  rideId : OId
  rating : ℚ
  deriving Repr, DecidableEq

/-- A document of the payments collection as inserted by POST /payment. -/
structure Payment where
  id : OId
  rideId : OId
  fare : ℚ
  driverId : OId
  status : String
  deriving Repr, DecidableEq

/-- The MyTaxiDB collections touched by the ride-lifecycle handlers. -/
structure DB where
  drivers : List Driver
  rides : List Ride
  ratings : List RatingDoc
  payments : List Payment
  deriving Repr, DecidableEq

/-- JavaScript toFixed(2) on a nonnegative number: round to the nearest
hundredth, ties picking the larger value (read back as a number). -/
def toFixed2 (q : ℚ) : ℚ :=
  (⌊q * 100 + 1 / 2⌋ : ℚ) / 100

/-- POST /ride/book (Week4.js).  The customer id comes from the JWT; the
fare argument stands for the Math.random() draw; newRideId stands for the
ObjectId Mongo generates for the inserted ride.  Missing PickupLocation or
Destination (JS falsy) is modelled by none. -/
def bookRide (s : DB) (customerId : OId) (pickupLocation destination : Option String)
    (fare : ℚ) (newRideId : OId) : DB × Nat :=
  match pickupLocation, destination with
  | some pu, some de =>
    match s.drivers.find? (fun d => d.status == "Available") with
    | none => (s, 503)
    | some d =>
      let ride : Ride :=
        { id := newRideId, customerId := customerId, driverId := some d.id,
          pickup := pu, destination := de, status := "Pending",
          paymentStatus := "Pending", fare := toFixed2 fare, paymentId := none }
      let s1 : DB := { s with rides := s.rides ++ [ride] }
      let s2 : DB :=
        { s1 with drivers := s1.drivers.map (fun dr =>
            if dr.id == d.id then { dr with status := "On Trip" } else dr) }
      (s2, 201)
  | _, _ => (s, 400)

/-- PATCH /ride/cancel/:rideId (Week4.js), caller authenticated as a
customer.  Note the JS guard of the driver reset is
Status === Accepted || (Status === Pending && ride.driverId), and the
driver update filters on _id equal to ride.driverId, which matches no
document when driverId is absent. -/
def cancelRide (s : DB) (callerId : OId) (rideId : OId) : DB × Nat :=
  match s.rides.find? (fun r => r.id == rideId) with
  | none => (s, 404)
  | some ride =>
    if ride.customerId != callerId then (s, 403)
    else if ride.status == "Completed" || ride.status == "Cancelled" then (s, 400)
    else
      let s1 : DB := { s with rides := s.rides.map (fun r =>
          if r.id == rideId then { r with status := "Cancelled" } else r) }
      let s2 : DB :=
        if ride.status == "Accepted" || (ride.status == "Pending" && ride.driverId.isSome) then
          match ride.driverId with
          | some did =>
            { s1 with drivers := s1.drivers.map (fun dr =>
                if dr.id == did then { dr with status := "Available" } else dr) }
          | none => s1
        else s1
      (s2, 200)

/-- PATCH /ride/accept/:rideId (Week4.js), caller authenticated as a
driver.  The second update filters on _id and Status Pending and its
matchedCount decides between 200 and 400, mirrored by the matched check. -/
def acceptRide (s : DB) (driverId : OId) (rideId : OId) : DB × Nat :=
  match s.rides.find? (fun r => r.id == rideId) with
  | none => (s, 404)
  | some ride =>
    if ride.status != "Pending" then (s, 400)
    else
      let onTrip :=
        match s.drivers.find? (fun d => d.id == driverId) with
        | some d => d.status == "On Trip"
        | none => false
      if onTrip then (s, 400)
      else
        let matched := s.rides.any (fun r => r.id == rideId && r.status == "Pending")
        let s1 : DB := { s with rides := s.rides.map (fun r =>
            if r.id == rideId && r.status == "Pending" then
              { r with status := "Accepted", driverId := some driverId } else r) }
        if matched then
          let s2 : DB := { s1 with drivers := s1.drivers.map (fun dr =>
              if dr.id == driverId then { dr with status := "On Trip" } else dr) }
          (s2, 200)
        else (s1, 400)

/-- PATCH /driver/cancel-ride/:rideId (Week4.js), caller authenticated as
a driver. -/
def driverCancelRide (s : DB) (driverId : OId) (rideId : OId) : DB × Nat :=
  match s.rides.find? (fun r => r.id == rideId) with
  | none => (s, 404)
  | some ride =>
    if (match ride.driverId with
        | some did => did != driverId
        | none => false) then (s, 403)
    else if ride.status == "Completed" || ride.status == "Cancelled" then (s, 400)
    else
      let s1 : DB := { s with rides := s.rides.map (fun r =>
          if r.id == rideId then { r with status := "Cancelled" } else r) }
      let s2 : DB :=
        if ride.driverId == some driverId then
          { s1 with drivers := s1.drivers.map (fun dr =>
              if dr.id == driverId then { dr with status := "Available" } else dr) }
        else s1
      (s2, 200)

/-- POST /payment (Week4.js), caller authenticated as a customer.  A
missing field, and amount 0 (JS falsy), give 400; otherwise the payment is
inserted, every ride whose _id equals rideId is marked Completed and Paid,
and every driver whose _id equals driverId has its Earnings incremented.
No check that the ride exists or is in any particular status is made. -/
def makePayment (s : DB) (rideId : Option OId) (amount : Option ℚ)
    (driverId : Option OId) (newPaymentId : OId) : DB × Nat :=
  match rideId, amount, driverId with
  | some rid, some amt, some did =>
    if amt = 0 then (s, 400)
    else
      let s1 : DB := { s with payments := s.payments ++
          [{ id := newPaymentId, rideId := rid, fare := amt, driverId := did,
             status := "Completed" }] }
      let s2 : DB := { s1 with rides := s1.rides.map (fun r =>
          if r.id == rid then
            { r with
              status := "Completed"
              paymentId := some newPaymentId
              paymentStatus := "Paid" }
          else r) }
      let s3 : DB := { s2 with drivers := s2.drivers.map (fun d =>
          if d.id == did then { d with earnings := d.earnings + amt } else d) }
      (s3, 201)
  | _, _, _ => (s, 400)

/-- POST /rating (Week4.js), caller authenticated as a customer.  A
missing field, and rating 0 (JS falsy), give 400, as does a rating outside
the closed interval 1 to 5; otherwise the rating is inserted and the
Rating of the driver is set to the mean of all ratings referencing the driver,
formatted with toFixed(2). -/
def giveRating (s : DB) (customerId : OId) (driverId rideId : Option OId)
    (rating : Option ℚ) (newRatingId : OId) : DB × Nat :=
  match driverId, rideId, rating with
  | some did, some rid, some rat =>
    if rat = 0 then (s, 400)
    else if rat < 1 ∨ rat > 5 then (s, 400)
    else
      let s1 : DB := { s with ratings := s.ratings ++
          [{ id := newRatingId, customerId := customerId, driverId := did,
             rideId := rid, rating := rat }] }
      let driverRatings := s1.ratings.filter (fun r => r.driverId == did)
      let total := (driverRatings.map (fun r => r.rating)).sum
      let avg := total / (driverRatings.length : ℚ)
      let s2 : DB := { s1 with drivers := s1.drivers.map (fun d =>
          if d.id == did then { d with rating := some (toFixed2 avg) } else d) }
      (s2, 201)
  | _, _, _ => (s, 400)

/-- PATCH /driver/:driverId/availability (Week4.js).  The caller must be
the driver named in the path; the status must be one of the three allowed
strings; the update filters on _id and matchedCount decides 200 or 404. -/
def setAvailability (s : DB) (callerId : OId) (driverIdParam : OId)
    (status : Option String) : DB × Nat :=
  if callerId != driverIdParam then (s, 403)
  else
    match status with
    | none => (s, 400)
    | some st =>
      if st == "Available" || st == "Offline" || st == "On Trip" then
        let matched := s.drivers.any (fun d => d.id == driverIdParam)
        let s1 : DB := { s with drivers := s.drivers.map (fun d =>
            if d.id == driverIdParam then { d with status := st } else d) }
        if matched then (s1, 200) else (s1, 404)
      else (s, 400)

end Taxi

namespace Week4Q

/-- A document of the queue collection of the Week4.js JPJeQDB app, with
the fields written by POST /queue/obtain there: customerId, locationId and
appointmentCategoryId are stored as ObjectIds. -/
structure QEntry where
  customerId : OId
  locationId : OId
  appointmentCategoryId : OId
  number : Nat
  served : Bool
  deriving Repr, DecidableEq

/-- A document of the locations collection (JPJeQDB). -/
structure Location where
  id : OId
  location : String
  deriving Repr, DecidableEq

/-- A document of the categories collection (JPJeQDB). -/
structure Category where
  id : OId
  category : String
  deriving Repr, DecidableEq

/-- The JPJeQDB collections touched by the queue handlers of Week4.js. -/
structure DB where
  customers : List OId
  locations : List Location
  categories : List Category
  queue : List QEntry
  deriving Repr, DecidableEq

/-- getNextQueueNumber of Week4.js: find the queue documents whose
appointmentCategoryId equals the given category id (the location is not
part of the filter), sort descending by number and take the first, and
return its number plus one, or 1 when there is no match.  Sorting
descending by number and taking the head is the maximum of the numbers. -/
def getNextQueueNumber (queue : List QEntry) (appointmentCategoryId : OId) : Nat :=
  let lastQueueEntry :=
    (queue.filter (fun e => e.appointmentCategoryId == appointmentCategoryId)).map
      (fun e => e.number)
  match lastQueueEntry.max? with
  | some m => m + 1
  | none => 1

/-- POST /queue/obtain of Week4.js: after checking that the customer,
location and category documents exist, compute the next number via
getNextQueueNumber (filtered by category only) and insert the queue entry.
The returned triple is the new state, the status code and the queueNumber
of the 201 response. -/
def queueObtain (s : DB) (customerId locationId appointmentCategoryId : OId) :
    DB × Nat × Option Nat :=
  let customer := s.customers.find? (fun c => c == customerId)
  let location := s.locations.find? (fun l => l.id == locationId)
  let category := s.categories.find? (fun c => c.id == appointmentCategoryId)
  match customer, location, category with
  | some _, some _, some _ =>
    let nextQueueNumber := getNextQueueNumber s.queue appointmentCategoryId
    let entry : QEntry :=
      { customerId := customerId, locationId := locationId,
        appointmentCategoryId := appointmentCategoryId,
        number := nextQueueNumber, served := false }
    ({ s with queue := s.queue ++ [entry] }, 201, some nextQueueNumber)
  | _, _, _ => (s, 400, none)

end Week4Q

namespace AssignQ

/-- A Mongo field value of the Assignment.js queue documents, where the
distinction between an ObjectId and a plain string matters: the insert in
POST /queue/obtain stores the category NAME under appointmentCategoryId
while getNextQueueNumber queries that field with an ObjectId. -/
inductive BVal where
  | oid : OId → BVal
  | str : String → BVal
  deriving Repr, DecidableEq

/-- A document of the queue collection of Assignment.js, with exactly the
fields its POST /queue/obtain writes: there is no locationId field (the
location is stored as its name under the field location), and
appointmentCategoryId holds a BVal because the insert writes the category
name where the sequencer queries an ObjectId.  locationId is an Option to
record that the inserted documents lack the field. -/
structure QEntry where
  customerId : OId
  location : String
  locationId : Option OId
  appointmentCategoryId : BVal
  number : Nat
  served : Bool
  deriving Repr, DecidableEq

/-- A document of the locations collection (Assignment.js), found by its
name. -/
structure Location where
  id : OId
  location : String
  deriving Repr, DecidableEq

/-- A document of the categories collection (Assignment.js), found by its
name. -/
structure Category where
  id : OId
  category : String
  deriving Repr, DecidableEq

/-- The JPJeQDB collections touched by the queue handlers of
Assignment.js. -/
structure DB where
  customers : List OId
  locations : List Location
  categories : List Category
  queue : List QEntry
  deriving Repr, DecidableEq

/-- getNextQueueNumber of Assignment.js: find the queue documents whose
locationId field equals the given location ObjectId and whose
appointmentCategoryId field equals the given category ObjectId, sort
descending by number, take the first and add one, else 1.  A document
without a locationId field, or whose appointmentCategoryId is a string,
does not match the ObjectId filter. -/
def getNextQueueNumber (queue : List QEntry) (locationId appointmentCategoryId : OId) :
    Nat :=
  let lastQueueEntry :=
    (queue.filter (fun e =>
      e.locationId == some locationId &&
      e.appointmentCategoryId == BVal.oid appointmentCategoryId)).map
      (fun e => e.number)
  match lastQueueEntry.max? with
  | some m => m + 1
  | none => 1

/-- POST /queue/obtain of Assignment.js: look up the location and category
by name, call getNextQueueNumber with their ObjectIds, then insert a queue
document that stores the location name under location (despite the inline
comment claiming an ObjectId is stored), the category NAME under
appointmentCategoryId, and no locationId field at all. -/
def queueObtain (s : DB) (customerId : OId) (locationName appointmentCategoryName : String) :
    DB × Nat × Option Nat :=
  let customer := s.customers.find? (fun c => c == customerId)
  let location := s.locations.find? (fun l => l.location == locationName)
  let category := s.categories.find? (fun c => c.category == appointmentCategoryName)
  match customer, location, category with
  | some _, some loc, some cat =>
    let nextQueueNumber := getNextQueueNumber s.queue loc.id cat.id
    let entry : QEntry :=
      { customerId := customerId, location := locationName, locationId := none,
        appointmentCategoryId := BVal.str appointmentCategoryName,
        number := nextQueueNumber, served := false }
    ({ s with queue := s.queue ++ [entry] }, 201, some nextQueueNumber)
  | _, _, _ => (s, 400, none)

end AssignQ

namespace RideAuth

/-- A document of the users collection of the unnamed ride app. -/
structure User where
  id : OId
  email : String
  role : String
  deriving Repr, DecidableEq

/-- The MyRideapp collections touched by the admin route. -/
structure DB where
  users : List User
  deriving Repr, DecidableEq

/-- DELETE /admin/users/:id of the unnamed ride app, behind the
authenticate and authorize middleware.  The authorize middleware rejects a
caller whose role is not admin with 403; the handler body itself only logs
and responds 204, performing no database operation at all. -/
def deleteAdminUser (s : DB) (callerRole : String) (id : OId) : DB × Nat :=
  if callerRole != "admin" then (s, 403)
  else (s, 204)

end RideAuth


/-!
Theorems settling the claims.  Concrete example states used by
counterexamples and witnesses follow first.
-/

/-- Example JPJeQDB state for the Assignment.js variant: one customer, the
location Dato Keramat and the category renew IC, empty queue. -/
def exAssign : AssignQ.DB :=
  { customers := [5]
    locations := [{ id := 1, location := "Dato Keramat" }]
    categories := [{ id := 7, category := "renew IC" }]
    queue := [] }

/-- Example JPJeQDB state for the Week4.js variant: one customer, two
locations sharing the category with id 7, and one existing ticket with
number 5 issued at location 1 for category 7. -/
def exWeek4 : Week4Q.DB :=
  { customers := [5]
    locations := [{ id := 1, location := "A" }, { id := 2, location := "B" }]
    categories := [{ id := 7, category := "renew IC" }]
    queue := [{ customerId := 6, locationId := 1, appointmentCategoryId := 7,
                number := 5, served := false }] }

/-- Claim C1: the claim states that getNextQueueNumber, as called by POST
/queue/obtain, returns the maximum ticket number recorded for the exact
(location, category) pair plus one, and 1 when the pair has no ticket, so
that consecutive requests for one pair receive 1, 2, 3 and so on.  The
code refutes this at both sources.  In Assignment.js two consecutive
obtain requests for the same (location, category) pair both receive ticket
number 1 (the sequencer queries a locationId field the insert never writes
and compares appointmentCategoryId against an ObjectId where the insert
stored the category name, so the filter never matches and the duplicate
contradicts the documentation of the function itself).  In Week4.js an obtain
request at location 2 for category 7, a pair with no recorded ticket,
receives number 6 rather than 1 because the sequencer filters by category
only and picks up the ticket numbered 5 issued at location 1. -/
theorem C1_sequencer_eval :
    (AssignQ.queueObtain exAssign 5 "Dato Keramat" "renew IC").2 = (201, some 1) ∧
    (AssignQ.queueObtain (AssignQ.queueObtain exAssign 5 "Dato Keramat" "renew IC").1
        5 "Dato Keramat" "renew IC").2 = (201, some 1) ∧
    (Week4Q.queueObtain exWeek4 5 2 7).2 = (201, some 6) := by
  refine ⟨by decide, by decide, by decide⟩

/-- Claim C4: a booking request (one carrying PickupLocation and
Destination) arriving when no driver has status Available is answered 503
and leaves the whole database state, in particular the rides and drivers
collections, unchanged. -/
theorem C4_book_no_available_driver (s : Taxi.DB) (customerId : OId)
    (pu de : String) (fare : ℚ) (newRideId : OId)
    (h : ∀ d ∈ s.drivers, d.status ≠ "Available") :
    Taxi.bookRide s customerId (some pu) (some de) fare newRideId = (s, 503) := by
  have hf : s.drivers.find? (fun d => d.status == "Available") = none := by
    rw [List.find?_eq_none]
    intro d hd
    simpa using h d hd
  simp [Taxi.bookRide, hf]

/-- Witness for C4 at a concrete state whose only driver is On Trip. -/
theorem C4_witness :
    Taxi.bookRide
      { drivers := [{ id := 20, status := "On Trip", earnings := 0, rating := none }]
        rides := [], ratings := [], payments := [] }
      10 (some "a") (some "b") 0 100 =
    ({ drivers := [{ id := 20, status := "On Trip", earnings := 0, rating := none }]
       rides := [], ratings := [], payments := [] }, 503) :=
  C4_book_no_available_driver _ 10 "a" "b" 0 100 (by decide)

/-- Claim C10: for every call by an authenticated admin to DELETE
/admin/users/:id of the unnamed ride app, the response is 204 and no
database write happens: the users collection is exactly as before. -/
theorem C10_delete_admin_user_no_write (s : RideAuth.DB) (role : String) (id : OId)
    (h : role = "admin") :
    RideAuth.deleteAdminUser s role id = (s, 204) := by
  simp [RideAuth.deleteAdminUser, h]

/-- Witness for C10 at a concrete one-user state. -/
theorem C10_witness :
    RideAuth.deleteAdminUser { users := [{ id := 1, email := "a@b.c", role := "user" }] }
      "admin" 1 =
    ({ users := [{ id := 1, email := "a@b.c", role := "user" }] }, 204) :=
  C10_delete_admin_user_no_write _ "admin" 1 rfl

/-- Claim C5: when a driver with status Available exists, a well-formed
booking request succeeds with 201; the rides collection gains exactly one
ride with status Pending, the found driver assigned and a fare, and that
document of that driver is flipped to status On Trip. -/
theorem C5_book_success (s : Taxi.DB) (customerId : OId) (pu de : String)
    (fare : ℚ) (newRideId : OId) (d : Taxi.Driver)
    (hf : s.drivers.find? (fun dr => dr.status == "Available") = some d) :
    Taxi.bookRide s customerId (some pu) (some de) fare newRideId =
      ({ s with
          rides := s.rides ++
            [{ id := newRideId, customerId := customerId, driverId := some d.id,
               pickup := pu, destination := de, status := "Pending",
               paymentStatus := "Pending", fare := Taxi.toFixed2 fare,
               paymentId := none }]
          drivers := s.drivers.map (fun dr =>
            if dr.id == d.id then { dr with status := "On Trip" } else dr) },
        201) := by
  simp [Taxi.bookRide, hf]

/-- Witness for C5 at a concrete state with a single Available driver. -/
theorem C5_witness :
    Taxi.bookRide
      { drivers := [{ id := 20, status := "Available", earnings := 0, rating := none }]
        rides := [], ratings := [], payments := [] }
      10 (some "a") (some "b") 0 100 =
      ({ drivers := [{ id := 20, status := "On Trip", earnings := 0, rating := none }]
         rides := [{ id := 100, customerId := 10, driverId := some 20, pickup := "a",
                     destination := "b", status := "Pending", paymentStatus := "Pending",
                     fare := Taxi.toFixed2 0, paymentId := none }]
         ratings := [], payments := [] }, 201) :=
  C5_book_success _ 10 "a" "b" 0 100
    { id := 20, status := "Available", earnings := 0, rating := none } (by decide)

/-- Claim C9: an authenticated customer payment supplying rideId, a
nonzero amount and driverId is answered 201: the payment document is
inserted, every ride whose _id equals rideId is marked Completed and Paid,
and every driver whose _id equals driverId has Earnings incremented by the
amount — with no check that the referenced ride exists; in particular when
no ride carries that _id the handler still answers 201, still records the
payment, and the rides collection is unchanged. -/
theorem C9_payment_no_ride_check (s : Taxi.DB) (rid did npid : OId) (amt : ℚ)
    (hamt : amt ≠ 0) :
    (Taxi.makePayment s (some rid) (some amt) (some did) npid =
      ({ s with
          payments := s.payments ++
            [{ id := npid, rideId := rid, fare := amt, driverId := did,
               status := "Completed" }]
          rides := s.rides.map (fun r =>
            if r.id == rid then
              { r with
                status := "Completed"
                paymentId := some npid
                paymentStatus := "Paid" }
            else r)
          drivers := s.drivers.map (fun d =>
            if d.id == did then { d with earnings := d.earnings + amt } else d) },
        201)) ∧
    ((∀ r ∈ s.rides, r.id ≠ rid) →
      (Taxi.makePayment s (some rid) (some amt) (some did) npid).1.rides = s.rides ∧
      (Taxi.makePayment s (some rid) (some amt) (some did) npid).2 = 201) := by
  have hmain :
      Taxi.makePayment s (some rid) (some amt) (some did) npid =
        ({ s with
            payments := s.payments ++
              [{ id := npid, rideId := rid, fare := amt, driverId := did,
                 status := "Completed" }]
            rides := s.rides.map (fun r =>
              if r.id == rid then
                { r with
                  status := "Completed"
                  paymentId := some npid
                  paymentStatus := "Paid" }
              else r)
            drivers := s.drivers.map (fun d =>
              if d.id == did then { d with earnings := d.earnings + amt } else d) },
          201) := by
    simp [Taxi.makePayment, hamt]
  refine ⟨hmain, fun hno => ⟨?_, ?_⟩⟩
  · rw [hmain]
    have : ∀ r ∈ s.rides,
        (if r.id == rid then
          { r with
            status := "Completed"
            paymentId := some npid
            paymentStatus := "Paid" }
        else r) = r := by
      intro r hr
      simp [hno r hr]
    calc (({ s with
            payments := s.payments ++
              [{ id := npid, rideId := rid, fare := amt, driverId := did,
                 status := "Completed" }]
            rides := s.rides.map (fun r =>
              if r.id == rid then
                { r with
                  status := "Completed"
                  paymentId := some npid
                  paymentStatus := "Paid" }
              else r)
            drivers := s.drivers.map (fun d =>
              if d.id == did then { d with earnings := d.earnings + amt } else d) },
          201) : Taxi.DB × Nat).1.rides
        = s.rides.map (fun r =>
            if r.id == rid then
              { r with
                status := "Completed"
                paymentId := some npid
                paymentStatus := "Paid" }
            else r) := rfl
      _ = s.rides.map id := List.map_congr_left this
      _ = s.rides := List.map_id s.rides
  · rw [hmain]

/-- Witness for C9 at a concrete state with one driver and no ride of the
referenced id. -/
theorem C9_witness :
    (∀ r ∈ (Taxi.DB.mk
        [{ id := 20, status := "On Trip", earnings := 0, rating := none }] [] [] []).rides,
        r.id ≠ 1) ∧
    (Taxi.makePayment
        (Taxi.DB.mk
          [{ id := 20, status := "On Trip", earnings := 0, rating := none }] [] [] [])
        (some 1) (some 5) (some 20) 99).1.rides = [] ∧
    (Taxi.makePayment
        (Taxi.DB.mk
          [{ id := 20, status := "On Trip", earnings := 0, rating := none }] [] [] [])
        (some 1) (some 5) (some 20) 99).2 = 201 := by
  have h5 : (5 : ℚ) ≠ 0 := by norm_num
  have hno : ∀ r ∈ (Taxi.DB.mk
      [{ id := 20, status := "On Trip", earnings := 0, rating := none }] [] [] []).rides,
      r.id ≠ 1 := by decide
  exact ⟨hno, (C9_payment_no_ride_check _ 1 20 99 5 h5).2 hno⟩

/-- Example MyTaxiDB state holding one ride in the terminal status
Cancelled, with its driver back to Available. -/
def exCancelled : Taxi.DB :=
  { drivers := [{ id := 20, status := "Available", earnings := 0, rating := none }]
    rides := [{ id := 1, customerId := 10, driverId := some 20, pickup := "a",
                destination := "b", status := "Cancelled", paymentStatus := "Pending",
                fare := 12, paymentId := none }]
    ratings := [], payments := [] }

/-- Example MyTaxiDB state holding one ride in the terminal status
Completed. -/
def exCompleted : Taxi.DB :=
  { drivers := [{ id := 20, status := "Available", earnings := 0, rating := none }]
    rides := [{ id := 1, customerId := 10, driverId := some 20, pickup := "a",
                destination := "b", status := "Completed", paymentStatus := "Paid",
                fare := 12, paymentId := none }]
    ratings := [], payments := [] }

/-- Claim C2 counterexample: the claim says no operation changes the
status of a ride that is Completed or Cancelled, but POST /payment updates
the ride unconditionally: paying against the Cancelled ride of exCancelled
rewrites its status to Completed. -/
theorem C2_counterexample :
    (exCancelled.rides.map fun r => r.status) = ["Cancelled"] ∧
    ((Taxi.makePayment exCancelled (some 1) (some 5) (some 20) 99).1.rides.map
      fun r => r.status) = ["Completed"] := by
  refine ⟨by decide, ?_⟩
  norm_num [Taxi.makePayment, exCancelled]

/-- Claim C2 as amended: terminal rides are left untouched by the customer
cancel, driver cancel and accept operations (each rejects the request
without writing), and the payment operation preserves the status of rides
that are already Completed; a Cancelled ride, however, is rewritten to
Completed by a payment referencing it, as the counterexample shows. -/
theorem C2_terminal_amended (s : Taxi.DB) (rideId : OId)
    (hterm : ∀ r ∈ s.rides, r.id = rideId →
      r.status = "Completed" ∨ r.status = "Cancelled") :
    (∀ callerId, (Taxi.cancelRide s callerId rideId).1 = s) ∧
    (∀ driverId, (Taxi.driverCancelRide s driverId rideId).1 = s) ∧
    (∀ driverId, (Taxi.acceptRide s driverId rideId).1 = s) ∧
    (∀ (amt : ℚ) (did npid : OId), amt ≠ 0 →
      (∀ r ∈ s.rides, r.id = rideId → r.status = "Completed") →
      ((Taxi.makePayment s (some rideId) (some amt) (some did) npid).1.rides.map
        fun r => r.status) = s.rides.map fun r => r.status) := by
  refine ⟨?_, ?_, ?_, ?_⟩
  · intro callerId
    cases hf : s.rides.find? (fun r => r.id == rideId) with
    | none => simp [Taxi.cancelRide, hf]
    | some ride =>
      have hmem := List.mem_of_find?_eq_some hf
      have hid : ride.id = rideId := by simpa using List.find?_some hf
      rcases hterm ride hmem hid with h | h <;>
        by_cases hc : ride.customerId = callerId <;>
        simp +decide [Taxi.cancelRide, hf, hc, h]
  · intro driverId
    cases hf : s.rides.find? (fun r => r.id == rideId) with
    | none => simp [Taxi.driverCancelRide, hf]
    | some ride =>
      have hmem := List.mem_of_find?_eq_some hf
      have hid : ride.id = rideId := by simpa using List.find?_some hf
      rcases hdid : ride.driverId with _ | did
      · rcases hterm ride hmem hid with h | h <;>
          simp +decide [Taxi.driverCancelRide, hf, hdid, h]
      · rcases hterm ride hmem hid with h | h <;>
          by_cases hd : did = driverId <;>
          simp +decide [Taxi.driverCancelRide, hf, hdid, hd, h]
  · intro driverId
    cases hf : s.rides.find? (fun r => r.id == rideId) with
    | none => simp [Taxi.acceptRide, hf]
    | some ride =>
      have hmem := List.mem_of_find?_eq_some hf
      have hid : ride.id = rideId := by simpa using List.find?_some hf
      rcases hterm ride hmem hid with h | h <;>
        simp +decide [Taxi.acceptRide, hf, h]
  · intro amt did npid hamt hcompl
    have hmain : (Taxi.makePayment s (some rideId) (some amt) (some did) npid).1.rides =
        s.rides.map (fun r =>
          if r.id == rideId then
            { r with
              status := "Completed"
              paymentId := some npid
              paymentStatus := "Paid" }
          else r) := by
      simp [Taxi.makePayment, hamt]
    rw [hmain, List.map_map]
    refine List.map_congr_left ?_
    intro r hr
    by_cases h0 : r.id = rideId
    · simp [h0, hcompl r hr h0]
    · simp [h0]

/-- Witness for the amended C2 at the concrete state exCompleted. -/
theorem C2_witness :
    (Taxi.cancelRide exCompleted 10 1).1 = exCompleted ∧
    (Taxi.driverCancelRide exCompleted 20 1).1 = exCompleted ∧
    (Taxi.acceptRide exCompleted 20 1).1 = exCompleted ∧
    ((Taxi.makePayment exCompleted (some 1) (some 5) (some 20) 99).1.rides.map
      fun r => r.status) = exCompleted.rides.map fun r => r.status := by
  have h := C2_terminal_amended exCompleted 1 (by decide)
  exact ⟨h.1 10, h.2.1 20, h.2.2.1 20, h.2.2.2 5 20 99 (by norm_num) (by decide)⟩

/-- Example MyTaxiDB state holding one Pending ride owned by customer 10
with driver 20 assigned (and therefore On Trip). -/
def exPending : Taxi.DB :=
  { drivers := [{ id := 20, status := "On Trip", earnings := 0, rating := none }]
    rides := [{ id := 1, customerId := 10, driverId := some 20, pickup := "a",
                destination := "b", status := "Pending", paymentStatus := "Pending",
                fare := 12, paymentId := none }]
    ratings := [], payments := [] }

/-- Claim C6: a cancel request by the owning customer on a ride in status
Pending or Accepted is answered 200, every ride document carrying that _id
is set to Cancelled, and when a driver was assigned every driver document
carrying the assigned _id is flipped back to Available; a cancel request
by the owner on a terminal ride is rejected with 400 and changes
nothing. -/
theorem C6_customer_cancel (s : Taxi.DB) (callerId rideId : OId) (ride : Taxi.Ride)
    (hf : s.rides.find? (fun r => r.id == rideId) = some ride)
    (hown : ride.customerId = callerId) :
    ((ride.status = "Pending" ∨ ride.status = "Accepted") →
      (Taxi.cancelRide s callerId rideId).2 = 200 ∧
      (∀ r ∈ (Taxi.cancelRide s callerId rideId).1.rides, r.id = rideId →
        r.status = "Cancelled") ∧
      (∀ did, ride.driverId = some did →
        ∀ dr ∈ (Taxi.cancelRide s callerId rideId).1.drivers, dr.id = did →
          dr.status = "Available")) ∧
    ((ride.status = "Completed" ∨ ride.status = "Cancelled") →
      Taxi.cancelRide s callerId rideId = (s, 400)) := by
  refine ⟨fun hnt => ?_, fun hterm => ?_⟩
  · have h200 : (Taxi.cancelRide s callerId rideId).2 = 200 := by
      rcases hnt with h | h <;> simp +decide [Taxi.cancelRide, hf, hown, h]
    have hrides : (Taxi.cancelRide s callerId rideId).1.rides =
        s.rides.map (fun r =>
          if r.id == rideId then { r with status := "Cancelled" } else r) := by
      rcases hnt with h | h <;>
        rcases hdid : ride.driverId with _ | did <;>
        simp +decide [Taxi.cancelRide, hf, hown, h, hdid]
    have hdrivers : ∀ did, ride.driverId = some did →
        (Taxi.cancelRide s callerId rideId).1.drivers =
          s.drivers.map (fun d =>
            if d.id == did then { d with status := "Available" } else d) := by
      intro did hdid
      rcases hnt with h | h <;> simp +decide [Taxi.cancelRide, hf, hown, h, hdid]
    refine ⟨h200, ?_, ?_⟩
    · rw [hrides]
      intro r hr hid
      rcases List.mem_map.1 hr with ⟨r0, _, rfl⟩
      by_cases h0 : r0.id = rideId <;> simp_all
    · intro did hdid dr hdr hdrid
      rw [hdrivers did hdid] at hdr
      rcases List.mem_map.1 hdr with ⟨d0, _, rfl⟩
      by_cases h0 : d0.id = did <;> simp_all
  · rcases hterm with h | h <;> simp +decide [Taxi.cancelRide, hf, hown, h]

/-- Witness for C6: cancelling the Pending ride of exPending succeeds with
200, while cancelling the Completed ride of exCompleted is rejected with
400 and leaves the state unchanged. -/
theorem C6_witness :
    (Taxi.cancelRide exPending 10 1).2 = 200 ∧
    Taxi.cancelRide exCompleted 10 1 = (exCompleted, 400) := by
  have h1 := C6_customer_cancel exPending 10 1
    { id := 1, customerId := 10, driverId := some 20, pickup := "a",
      destination := "b", status := "Pending", paymentStatus := "Pending",
      fare := 12, paymentId := none } (by decide) rfl
  have h2 := C6_customer_cancel exCompleted 10 1
    { id := 1, customerId := 10, driverId := some 20, pickup := "a",
      destination := "b", status := "Completed", paymentStatus := "Paid",
      fare := 12, paymentId := none } (by decide) rfl
  exact ⟨(h1.1 (Or.inl rfl)).1, h2.2 (Or.inl rfl)⟩

/-- Example MyTaxiDB state like exPending but with a second driver 21 who
is Available. -/
def exPending2 : Taxi.DB :=
  { drivers := [{ id := 20, status := "On Trip", earnings := 0, rating := none },
                { id := 21, status := "Available", earnings := 0, rating := none }]
    rides := [{ id := 1, customerId := 10, driverId := some 20, pickup := "a",
                destination := "b", status := "Pending", paymentStatus := "Pending",
                fare := 12, paymentId := none }]
    ratings := [], payments := [] }

/-- Claim C7: an accept request succeeds exactly when the ride is Pending
and the calling driver is not On Trip: on success it answers 200, turns
the Pending ride documents with that _id into Accepted rides assigned to
the caller, and flips the driver documents of the caller to On Trip; when the
ride exists but is not Pending, or the driver document of the caller is On
Trip, it answers 400 and leaves the state untouched. -/
theorem C7_accept (s : Taxi.DB) (driverId rideId : OId) (ride : Taxi.Ride)
    (hf : s.rides.find? (fun r => r.id == rideId) = some ride) :
    (ride.status = "Pending" →
      (∀ d, s.drivers.find? (fun dr => dr.id == driverId) = some d →
        d.status ≠ "On Trip") →
      (Taxi.acceptRide s driverId rideId).2 = 200 ∧
      (Taxi.acceptRide s driverId rideId).1.rides =
        s.rides.map (fun r =>
          if r.id == rideId && r.status == "Pending" then
            { r with status := "Accepted", driverId := some driverId } else r) ∧
      (Taxi.acceptRide s driverId rideId).1.drivers =
        s.drivers.map (fun dr =>
          if dr.id == driverId then { dr with status := "On Trip" } else dr)) ∧
    (ride.status ≠ "Pending" → Taxi.acceptRide s driverId rideId = (s, 400)) ∧
    (∀ d, s.drivers.find? (fun dr => dr.id == driverId) = some d →
      d.status = "On Trip" → ride.status = "Pending" →
      Taxi.acceptRide s driverId rideId = (s, 400)) := by
  have hmem := List.mem_of_find?_eq_some hf
  have hid : ride.id = rideId := by simpa using List.find?_some hf
  refine ⟨fun hp hnd => ?_, fun hnp => ?_, fun d hd hot hp => ?_⟩
  · have hmatched : s.rides.any (fun r => r.id == rideId && r.status == "Pending") = true := by
      rw [List.any_eq_true]
      exact ⟨ride, hmem, by simp [hid, hp]⟩
    cases hd : s.drivers.find? (fun dr => dr.id == driverId) with
    | none =>
      refine ⟨?_, ?_, ?_⟩ <;> simp +decide [Taxi.acceptRide, hf, hp, hd, hmatched]
    | some d =>
      have hne := hnd d hd
      refine ⟨?_, ?_, ?_⟩ <;>
        simp +decide [Taxi.acceptRide, hf, hp, hd, hne, hmatched]
  · simp [Taxi.acceptRide, hf, hnp]
  · simp +decide [Taxi.acceptRide, hf, hp, hd, hot]

/-- Witness for C7: at exPending2 the Available driver 21 accepts the
Pending ride with 200; the On Trip driver 20 is rejected with 400; and at
exCompleted the accept is rejected with 400 because the ride is not
Pending. -/
theorem C7_witness :
    (Taxi.acceptRide exPending2 21 1).2 = 200 ∧
    Taxi.acceptRide exPending2 20 1 = (exPending2, 400) ∧
    Taxi.acceptRide exCompleted 20 1 = (exCompleted, 400) := by
  have h1 := C7_accept exPending2 21 1
    { id := 1, customerId := 10, driverId := some 20, pickup := "a",
      destination := "b", status := "Pending", paymentStatus := "Pending",
      fare := 12, paymentId := none } (by decide)
  have h2 := C7_accept exPending2 20 1
    { id := 1, customerId := 10, driverId := some 20, pickup := "a",
      destination := "b", status := "Pending", paymentStatus := "Pending",
      fare := 12, paymentId := none } (by decide)
  have h3 := C7_accept exCompleted 20 1
    { id := 1, customerId := 10, driverId := some 20, pickup := "a",
      destination := "b", status := "Completed", paymentStatus := "Paid",
      fare := 12, paymentId := none } (by decide)
  refine ⟨(h1.1 rfl ?_).1, ?_, h3.2.1 (by decide)⟩
  · intro d hd
    have hx : exPending2.drivers.find? (fun dr => dr.id == 21) =
        some { id := 21, status := "Available", earnings := 0, rating := none } := by
      decide
    rw [hx] at hd
    cases hd
    decide
  · exact h2.2.2 { id := 20, status := "On Trip", earnings := 0, rating := none }
      (by decide) rfl rfl

/-- Example MyTaxiDB state with a single Available driver and no rides. -/
def exAvail : Taxi.DB :=
  { drivers := [{ id := 20, status := "Available", earnings := 0, rating := none }]
    rides := [], ratings := [], payments := [] }

/-- Claim C8 counterexample: the claim says the driver assigned at booking
can NEVER successfully accept the ride assigned to them, but the driver
can first reset their own status through PATCH /driver/:id/availability
and then accept the still Pending ride: starting from exAvail, booking
succeeds (201), and after driver 20 sets their availability back to
Available their accept request for the booked ride succeeds with 200. -/
theorem C8_counterexample :
    (Taxi.bookRide exAvail 10 (some "a") (some "b") 0 100).2 = 201 ∧
    (Taxi.acceptRide
        (Taxi.setAvailability
          (Taxi.bookRide exAvail 10 (some "a") (some "b") 0 100).1
          20 20 (some "Available")).1
        20 100).2 = 200 := by
  constructor
  · norm_num [exAvail, Taxi.bookRide]
  · norm_num [exAvail, Taxi.bookRide, Taxi.setAvailability, Taxi.acceptRide,
      Taxi.toFixed2]
    decide

/-- Claim C8 as amended: a successful booking leaves the new ride Pending
and the assigned driver On Trip, and an accept request by the assigned
driver made while that status still stands — in particular immediately
after the booking — is rejected with 400 and changes nothing; only after
the status of the driver changes again (for example through the availability
endpoint, as the counterexample shows) can the ride be accepted.  The
hypothesis hfirst records that the driver found Available is the first
document with its _id, which the unique _id of Mongo guarantees. -/
theorem C8_assigned_driver_accept_rejected (s : Taxi.DB) (customerId : OId)
    (pu de : String) (fare : ℚ) (newRideId : OId) (d : Taxi.Driver)
    (hf : s.drivers.find? (fun dr => dr.status == "Available") = some d)
    (hfresh : ∀ r ∈ s.rides, r.id ≠ newRideId)
    (hfirst : s.drivers.find? (fun dr => dr.id == d.id) = some d) :
    (Taxi.bookRide s customerId (some pu) (some de) fare newRideId).2 = 201 ∧
    Taxi.acceptRide (Taxi.bookRide s customerId (some pu) (some de) fare newRideId).1
        d.id newRideId =
      ((Taxi.bookRide s customerId (some pu) (some de) fare newRideId).1, 400) := by
  have hb : Taxi.bookRide s customerId (some pu) (some de) fare newRideId =
      ({ s with
          rides := s.rides ++
            [{ id := newRideId, customerId := customerId, driverId := some d.id,
               pickup := pu, destination := de, status := "Pending",
               paymentStatus := "Pending", fare := Taxi.toFixed2 fare,
               paymentId := none }]
          drivers := s.drivers.map (fun dr =>
            if dr.id == d.id then { dr with status := "On Trip" } else dr) },
        201) := by
    simp [Taxi.bookRide, hf]
  refine ⟨by rw [hb], ?_⟩
  rw [hb]
  have hnone : s.rides.find? (fun r => r.id == newRideId) = none := by
    rw [List.find?_eq_none]
    intro r hr
    simpa using hfresh r hr
  have hfr : (s.rides ++
      [({ id := newRideId, customerId := customerId, driverId := some d.id,
          pickup := pu, destination := de, status := "Pending",
          paymentStatus := "Pending", fare := Taxi.toFixed2 fare,
          paymentId := none } : Taxi.Ride)]).find? (fun r => r.id == newRideId) =
      some { id := newRideId, customerId := customerId, driverId := some d.id,
             pickup := pu, destination := de, status := "Pending",
             paymentStatus := "Pending", fare := Taxi.toFixed2 fare,
             paymentId := none } := by
    rw [List.find?_append, hnone]
    simp
  have hpf : ((fun dr => Taxi.Driver.id dr == d.id) ∘ (fun dr =>
      if dr.id == d.id then { dr with status := "On Trip" } else dr)) =
      fun dr => dr.id == d.id := by
    funext dr
    by_cases h : dr.id = d.id <;> simp [h]
  have hfd : ((s.drivers.map (fun dr =>
      if dr.id == d.id then { dr with status := "On Trip" } else dr)).find?
        (fun dr => dr.id == d.id)) = some { d with status := "On Trip" } := by
    rw [List.find?_map, hpf, hfirst]
    simp
  simp only [Taxi.acceptRide, hfr, hfd]
  simp +decide

/-- Witness for the amended C8 at the concrete state exAvail. -/
theorem C8_witness :
    (Taxi.bookRide exAvail 10 (some "a") (some "b") 0 100).2 = 201 ∧
    Taxi.acceptRide (Taxi.bookRide exAvail 10 (some "a") (some "b") 0 100).1 20 100 =
      ((Taxi.bookRide exAvail 10 (some "a") (some "b") 0 100).1, 400) :=
  C8_assigned_driver_accept_rejected exAvail 10 "a" "b" 0 100
    { id := 20, status := "Available", earnings := 0, rating := none }
    (by decide) (by decide) (by decide)

/-- The rating values recorded for a driver, in insertion order: the
ratings collection filtered by driverId, projected to the rating field
(the list POST /rating averages over). -/
def driverVals (s : Taxi.DB) (did : OId) : List ℚ :=
  (s.ratings.filter (fun r => r.driverId == did)).map (fun r => r.rating)

/-- Abbreviation for the rating document POST /rating inserts. -/
def mkRating (nid c did rid : OId) (v : ℚ) : Taxi.RatingDoc :=
  { id := nid, customerId := c, driverId := did, rideId := rid, rating := v }

/-- Sequential submission of a list of ratings for one driver through
POST /rating, keeping only the evolving state. -/
def applyRatings (c did rid : OId) (s : Taxi.DB) : List ℚ → Taxi.DB
  | [] => s
  | v :: vs =>
    applyRatings c did rid (Taxi.giveRating s c (some did) (some rid) (some v) 0).1 vs

/-- One accepted POST /rating: response 201, the rating document appended,
and every driver document with the rated _id updated to the toFixed2 mean
of all ratings now recorded for that driver. -/
theorem giveRating_accepted_step (s : Taxi.DB) (c did rid nid : OId) (v : ℚ)
    (h1 : 1 ≤ v) (h5 : v ≤ 5) :
    (Taxi.giveRating s c (some did) (some rid) (some v) nid).2 = 201 ∧
    (Taxi.giveRating s c (some did) (some rid) (some v) nid).1.ratings =
      s.ratings ++ [mkRating nid c did rid v] ∧
    (Taxi.giveRating s c (some did) (some rid) (some v) nid).1.drivers =
      s.drivers.map (fun d => if d.id == did then
        { d with rating := some (Taxi.toFixed2
            ((driverVals s did ++ [v]).sum /
             ((((driverVals s did).length + 1 : ℕ)) : ℚ))) } else d) := by
  have hv0 : ¬ v = 0 := by
    intro h
    rw [h] at h1
    norm_num at h1
  have hr : ¬ (v < 1 ∨ v > 5) := by
    push_neg
    exact ⟨h1, h5⟩
  refine ⟨by simp [Taxi.giveRating, hv0, hr], ?_, ?_⟩
  · simp [Taxi.giveRating, hv0, hr, mkRating]
  · simp only [Taxi.giveRating, hv0, hr, if_false, ite_false]
    simp only [List.filter_append, List.map_append, List.sum_append,
      List.length_append]
    simp [driverVals, mkRating]

/-- Folding a list of accepted ratings through POST /rating: the values
recorded for the driver extend by exactly the submitted list, and for a
nonempty list every driver document with the rated _id ends up carrying
the toFixed2 mean over all recorded values. -/
theorem applyRatings_spec (c did rid : OId) (vals : List ℚ) :
    ∀ (s : Taxi.DB), (∀ v ∈ vals, 1 ≤ v ∧ v ≤ 5) →
      driverVals (applyRatings c did rid s vals) did = driverVals s did ++ vals ∧
      (vals ≠ [] →
        (applyRatings c did rid s vals).drivers =
          s.drivers.map (fun d => if d.id == did then
            { d with rating := some (Taxi.toFixed2
                ((driverVals s did ++ vals).sum /
                 ((((driverVals s did).length + vals.length : ℕ)) : ℚ))) } else d)) := by
  induction vals with
  | nil =>
    intro s _
    simp [applyRatings]
  | cons v vs ih =>
    intro s hrange
    have hv := hrange v (List.mem_cons_self v vs)
    have hstep := giveRating_accepted_step s c did rid 0 v hv.1 hv.2
    have hvals1 : driverVals (Taxi.giveRating s c (some did) (some rid) (some v) 0).1 did =
        driverVals s did ++ [v] := by
      unfold driverVals
      rw [hstep.2.1, List.filter_append, List.map_append]
      simp [driverVals, mkRating]
    have hrest := ih (Taxi.giveRating s c (some did) (some rid) (some v) 0).1
      (fun u hu => hrange u (List.mem_cons_of_mem v hu))
    have happ : applyRatings c did rid s (v :: vs) =
        applyRatings c did rid (Taxi.giveRating s c (some did) (some rid) (some v) 0).1 vs :=
      rfl
    constructor
    · rw [happ, hrest.1, hvals1, List.append_assoc]
      simp
    · intro _
      rcases eq_or_ne vs [] with hvs | hvs
      · subst hvs
        have hone : applyRatings c did rid s [v] =
            (Taxi.giveRating s c (some did) (some rid) (some v) 0).1 := rfl
        rw [hone, hstep.2.2]
        simp
      · rw [happ, hrest.2 hvs, hstep.2.2, List.map_map]
        refine List.map_congr_left ?_
        intro d _
        by_cases hd : d.id = did
        · have hsum : ((driverVals s did ++ [v]) ++ vs).sum =
              (driverVals s did ++ v :: vs).sum := by
            rw [List.append_assoc]
            simp
          have hlen : ((driverVals s did ++ [v]).length + vs.length : ℕ) =
              (driverVals s did).length + (v :: vs).length := by
            simp [List.length_append]
            omega
          simp only [Function.comp_apply, hvals1, hd, beq_self_eq_true, if_true,
            hsum, hlen]
        · simp [Function.comp_apply, hd]

/-- Claim C3 counterexample: after the three accepted ratings 1, 1 and 2
for driver 20 (starting from exAvail, which has no ratings), the stored
average is 1.33 — the toFixed(2) rounding of 4/3 — which differs from the
arithmetic mean 4/3 of exactly those three values, so the stored average
does not equal the arithmetic mean as claimed. -/
theorem C3_counterexample :
    ((applyRatings 10 20 1 exAvail [1, 1, 2]).drivers.map fun d => d.rating) =
      [some (133 / 100)] ∧
    (133 / 100 : ℚ) ≠ ((1 : ℚ) + 1 + 2) / 3 := by
  constructor
  · norm_num [applyRatings, exAvail, Taxi.giveRating, Taxi.toFixed2]
  · norm_num

/-- Claim C3 as amended: a rating outside the closed interval from 1 to 5
is rejected with 400 and the state, in particular the ratings collection,
is unchanged; and after any nonempty sequence of accepted rating
submissions for a driver with no previously recorded rating, every driver
document with that _id stores the arithmetic mean of exactly those values
rounded by toFixed(2) to two decimals (for the values 5 and 3 this rounded
mean is exactly 4.00, as the witness shows). -/
theorem C3_rating_submissions (s : Taxi.DB) (c did rid nid : OId) :
    (∀ (v : ℚ), (v < 1 ∨ v > 5) →
      Taxi.giveRating s c (some did) (some rid) (some v) nid = (s, 400)) ∧
    (∀ (vals : List ℚ), (∀ v ∈ vals, 1 ≤ v ∧ v ≤ 5) → vals ≠ [] →
      driverVals s did = [] →
      (applyRatings c did rid s vals).drivers =
        s.drivers.map (fun d => if d.id == did then
          { d with rating := some (Taxi.toFixed2 (vals.sum / (vals.length : ℚ))) }
          else d)) := by
  constructor
  · intro v hv
    by_cases hv0 : v = 0
    · simp [Taxi.giveRating, hv0]
    · rcases hv with h | h <;> simp [Taxi.giveRating, hv0, h]
  · intro vals hrange hne hempty
    have h := (applyRatings_spec c did rid vals s hrange).2 hne
    rw [h, hempty]
    simp

/-- Witness for the amended C3: the out-of-range rating 6 is rejected at
exAvail without change, and submitting the ratings 5 and 3 stores the
average 4.00 on driver 20, the example given by the spec. -/
theorem C3_witness :
    Taxi.giveRating exAvail 10 (some 20) (some 1) (some 6) 101 = (exAvail, 400) ∧
    ((applyRatings 10 20 1 exAvail [5, 3]).drivers.map fun d => d.rating) =
      [some 4] := by
  have h := C3_rating_submissions exAvail 10 20 1 101
  refine ⟨h.1 6 (by norm_num), ?_⟩
  rw [h.2 [5, 3] (by norm_num) (by simp) (by decide)]
  norm_num [exAvail, Taxi.toFixed2]
